import Mathlib

/-!
Verification of the windowed metrics aggregation and rule-based
classification engine of the aws-runner repository.

The Python sources are shallowly embedded: CloudWatch series become
`List ℚ`, Python floats become `ℚ`, `None`-able values become `Option`,
and a fallible Telemetry Source call becomes an `Except` value fed to
the wrapper that guards it.  Each definition is a direct translation of
the function of the same name in the sources:

* `scripts/common/cloudwatch.py` : `_percentile`, `summarize`
* `scripts/reviews/ec2_utilization/run.py` : `p95`
* `scripts/reviews/rds_rightsizing/run.py` : `safe_series`,
  `min_period_for_days`, `effective_period`
* `scripts/reviews/amazon_mq_finops/run.py` : `get_stat_with_fallback`
  (and the identical `effective_period`)
* `scripts/reviews/ecs_rightsizing/run.py` : the Container-Insights →
  `AWS/ECS` service fallback of `collect_service_row` and the
  cluster-level fallback of `collect_profile`
* `scripts/reviews/dynamodb_finops/run.py` : `MetricAggregate`,
  `safe_div`, `stability_ratio`, and the coverage computation and the
  decision-rule block of `collect_table`.
-/

/-- Sorting used to model Python's `sorted(...)` (a fresh sorted copy of
a numeric list). -/
def sortQ (l : List ℚ) : List ℚ :=
  l.insertionSort (· ≤ ·)

/-- Smallest element of a list, read off the sorted copy (`sorted(s)[0]`). -/
def minOfS (l : List ℚ) : ℚ :=
  (sortQ l).getD 0 0

/-- Largest element of a list, read off the sorted copy (`sorted(s)[-1]`). -/
def maxOfS (l : List ℚ) : ℚ :=
  (sortQ l).getD ((sortQ l).length - 1) 0

/-- `scripts/common/cloudwatch.py::_percentile`: linear-interpolation
percentile over an already sorted series; `None` on empty input. -/
def percentileOfSorted (sorted_series : List ℚ) (p : ℚ) : Option ℚ :=
  if sorted_series.isEmpty then none
  else
    let n := sorted_series.length
    let k : ℚ := ((n : ℚ) - 1) * (p / 100)
    let f : ℤ := Int.floor k
    let c : ℤ := min (f + 1) ((n : ℤ) - 1)
    if f = c then some (sorted_series.getD f.toNat 0)
    else some (sorted_series.getD f.toNat 0 +
      (sorted_series.getD c.toNat 0 - sorted_series.getD f.toNat 0) * (k - (f : ℚ)))

/-- `scripts/common/cloudwatch.py::summarize`: `(avg, p95, max)` of a
series, computed on a sorted copy; `(None, None, None)` on empty input. -/
def summarize (series : List ℚ) : Option ℚ × Option ℚ × Option ℚ :=
  if series.isEmpty then (none, none, none)
  else
    let s := sortQ series
    let avg := s.sum / (s.length : ℚ)
    let p95v := percentileOfSorted s 95
    let mx := s.getLastD 0
    (some avg, p95v, some mx)

/-- `scripts/reviews/ec2_utilization/run.py::p95`: nearest-rank p95
(`ys[int(round(0.95 * (len(ys) - 1)))]` on a sorted copy), sentinel `0`
on empty input.  Python's float `round` agrees with exact rounding away
from half-integer ranks; the properties proved below do not depend on
the tie direction. -/
def p95ec2 (xs : List ℚ) : ℚ :=
  if xs.isEmpty then 0
  else
    let ys := sortQ xs
    let idx : ℤ := round ((95 / 100 : ℚ) * ((ys.length : ℚ) - 1))
    ys.getD idx.toNat 0

/-- State-passing embedding of `summarize`, recording the contents of the
caller's list object after the call: `s = sorted(series)` allocates a new
list, `series` itself is never written. -/
def summarize_state (series : List ℚ) :
    List ℚ × (Option ℚ × Option ℚ × Option ℚ) :=
  if series.isEmpty then (series, (none, none, none))
  else
    let s := sortQ series
    (series, (some (s.sum / (s.length : ℚ)), percentileOfSorted s 95,
      some (s.getLastD 0)))

/-- State-passing embedding of the EC2 `p95` helper: `ys = sorted(xs)` is a
copy, `xs` is never written. -/
def p95ec2_state (xs : List ℚ) : List ℚ × ℚ :=
  if xs.isEmpty then (xs, 0)
  else
    let ys := sortQ xs
    (xs, ys.getD (round ((95 / 100 : ℚ) * ((ys.length : ℚ) - 1))).toNat 0)

/-- A client error raised by the Telemetry Source
(`botocore.exceptions.ClientError`), identified by its error code
(`AccessDenied`, `Throttling`, `InvalidParameterCombination`, ...). -/
structure ClientError where
  code : String

/-- `safe_series` as written identically in the RDS, ECS and MQ reviews:
wraps one `get_metric_series` call; its argument is the outcome of that
call (datapoint series, or a raised `ClientError`).  The `except
ClientError` arm logs a skip and returns the empty series. -/
def safe_series (fetch : Except ClientError (List ℚ)) : List ℚ :=
  match fetch with
  | Except.ok s => s
  | Except.error _ => []

/-- The per-metric loop of `collect_for_instance`
(`rds_rightsizing/run.py`): every metric's fetch outcome is passed through
`safe_series` and summarized, one output entry per metric. -/
def collect_series (fetches : List (Except ClientError (List ℚ))) :
    List (Option ℚ × Option ℚ × Option ℚ) :=
  fetches.map (fun f => summarize (safe_series f))

/-- `rds_rightsizing/run.py::min_period_for_days` (the MQ review inlines
the same computation): ceiling of `days*86400 / 1440`, rounded up to a
multiple of 60. -/
def min_period_for_days (days : ℕ) : ℕ :=
  let total_seconds := days * 86400
  let raw := (total_seconds + 1440 - 1) / 1440
  if raw % 60 ≠ 0 then ((raw + 59) / 60) * 60 else raw

/-- `effective_period` from the RDS, ECS and MQ reviews:
`max(requested, min_period_for_days(days))`. -/
def effective_period (days requested : ℕ) : ℕ :=
  max requested (min_period_for_days days)

/-- `amazon_mq_finops/run.py::get_stat_with_fallback`, with the two
underlying `safe_series` results (the `Average`-statistic series and the
`Maximum`-statistic series) as arguments: summarize the primary; if both
its average and its max are `None`, summarize the fallback instead. -/
def get_stat_with_fallback (s_avg s_max : List ℚ) :
    Option ℚ × Option ℚ × Option ℚ :=
  let r := summarize s_avg
  if r.1 ≠ none ∨ r.2.2 ≠ none then r
  else summarize s_max

/-- `dynamodb_finops/run.py::safe_div`: `n / d if d else default`. -/
def safe_div (n d default : ℚ) : ℚ :=
  if d ≠ 0 then n / d else default

/-- `dynamodb_finops/run.py::stability_ratio`: `peak/avg` with guardrails,
`0.0` when `avg <= 0`. -/
def stability_ratio (peak avg : ℚ) : ℚ :=
  if avg ≤ 0 then 0 else peak / avg

/-- `dynamodb_finops/run.py::MetricAggregate`: arrays of per-datapoint
Sum/Maximum/p95 statistics plus the retrieved sample count. -/
structure MetricAggregate where
  sums : List ℚ
  maxs : List ℚ
  p95s : List ℚ
  samples_count : ℕ

/-- `MetricAggregate.total_sum`: `sum(sums)` (`0.0` when empty). -/
def MetricAggregate.total_sum (m : MetricAggregate) : ℚ :=
  if ¬m.sums.isEmpty then m.sums.sum else 0

/-- `MetricAggregate.peak`: `max(maxs)` (`0.0` when empty). -/
def MetricAggregate.peak (m : MetricAggregate) : ℚ :=
  if ¬m.maxs.isEmpty then maxOfS m.maxs else 0

/-- `MetricAggregate.p95`: interpolated p95 over the stored per-datapoint
p95 values; returns `0.0` (not `None`) when no p95 samples were stored. -/
def MetricAggregate.p95 (m : MetricAggregate) : ℚ :=
  if m.p95s.isEmpty then 0
  else
    let ordered := sortQ m.p95s
    let k : ℚ := ((ordered.length : ℚ) - 1) * (95 / 100)
    let f : ℤ := Int.floor k
    let c : ℤ := min (f + 1) ((ordered.length : ℤ) - 1)
    if f = c then ordered.getD f.toNat 0
    else ordered.getD f.toNat 0 * ((c : ℚ) - k) +
      ordered.getD c.toNat 0 * (k - (f : ℚ))

/-- `SEC_30D = 30 * 24 * 3600` (`dynamodb_finops/run.py`). -/
def SEC_30D : ℕ := 30 * 24 * 3600

/-- The 30d entry of `TIME_WINDOWS`: lookback days and period seconds. -/
def window30_days : ℕ := 30

/-- Period (granularity) of the 30d window, seconds. -/
def window30_period : ℕ := 3600

/-- `expected_samples_30d = math.floor(SEC_30D / 3600)` from
`collect_table`. -/
def expected_samples_30d : ℕ := SEC_30D / 3600

/-- The coverage check of `collect_table`: both the read and the write 30d
aggregates must retrieve at least `expected_samples_30d * 0.95` samples. -/
def coverage_ok_calc (samples_read samples_write : ℕ) : Bool :=
  decide ((expected_samples_30d : ℚ) * (95 / 100) ≤ (samples_read : ℚ)) &&
  decide ((expected_samples_30d : ℚ) * (95 / 100) ≤ (samples_write : ℚ))

/-- The decision-rule block of `collect_table` (`dynamodb_finops/run.py`),
as a function of the indicators it reads: coverage flag, the four throttle
sums, the two 7d stability ratios, the two 30d spike ratios, the combined
average ops/sec, and the two headroom ratios. -/
def recommendation (coverage_ok : Bool)
    (thr_r_7d thr_w_7d thr_r_30d thr_w_30d : ℚ)
    (stability_7d_read stability_7d_write : ℚ)
    (read_spike_ratio write_spike_ratio : ℚ)
    (avg_ops_sec headroom_r headroom_w : ℚ) : String :=
  if coverage_ok = false then "NEED_MORE_DATA"
  else if 0 < thr_r_7d + thr_w_7d + thr_r_30d + thr_w_30d then
    "ON_DEMAND | throttles observed"
  else
    if (stability_7d_read ≤ 2 ∧ stability_7d_write ≤ 2) ∧
        (read_spike_ratio ≤ 2 ∧ write_spike_ratio ≤ 2) ∧
        10 ≤ avg_ops_sec ∧ headroom_r ≤ 6 / 10 ∧ headroom_w ≤ 6 / 10 then
      "PROVISIONED_STRONG (AS target~70%)"
    else if 10 ≤ avg_ops_sec ∧
        ((stability_7d_read ≤ 3 ∧ stability_7d_write ≤ 3) ∨
          (read_spike_ratio ≤ 4 ∧ write_spike_ratio ≤ 4)) then
      "PROVISIONED_CAUTIOUS (AS target~70% + alarms)"
    else "ON_DEMAND"

/-- `ecs_rightsizing/run.py`: the service-level CPU (or memory) lookup of
`collect_service_row`.  `summarize_ci_metric` and
`summarize_ecs_service_metric` are both `summarize(safe_series(...))`, so
neither can raise on a fetch failure; the arguments here are the two
already-guarded series: the primary `ECS/ContainerInsights` one and the
coarser `AWS/ECS` service-level one.  The `AWS/ECS` summary is
substituted exactly when the Container-Insights average is `None`
(`if cpu_avg is None:` / `if mem_avg is None:`), and the row keeps the
average and p95 of whichever summary was chosen, in the same columns
either way. -/
def ecs_service_metric_with_fallback (ci_series ecs_series : List ℚ) :
    Option ℚ × Option ℚ × Option ℚ :=
  let r := summarize ci_series
  if r.1 = none then summarize ecs_series else r

/-- The utilization columns of one ECS service row
(`ecs_rightsizing/run.py::collect_service_row`): service-level CPU and
memory average/p95 (`cpu_util_avg_pct`, `cpu_util_p95_pct`,
`mem_util_avg_pct`, `mem_util_p95_pct`) and the cluster-level averages
that `collect_profile` may attach later (`cluster_cpu_util_avg`,
`cluster_mem_util_avg`, initialized to `None`). -/
structure EcsServiceUtil where
  cpu_util_avg_pct : Option ℚ
  cpu_util_p95_pct : Option ℚ
  mem_util_avg_pct : Option ℚ
  mem_util_p95_pct : Option ℚ
  cluster_cpu_util_avg : Option ℚ
  cluster_mem_util_avg : Option ℚ

/-- The utilization part of `collect_service_row`: CPU and memory each go
through the Container-Insights-first, `AWS/ECS`-second fallback; the
`cluster_*` columns start as `None`. -/
def collect_service_util (cpu_ci cpu_ecs mem_ci mem_ecs : List ℚ) :
    EcsServiceUtil :=
  let cpu := ecs_service_metric_with_fallback cpu_ci cpu_ecs
  let mem := ecs_service_metric_with_fallback mem_ci mem_ecs
  EcsServiceUtil.mk cpu.1 cpu.2.1 mem.1 mem.2.1 none none

/-- The cluster-level fallback of `collect_profile`
(`ecs_rightsizing/run.py`): only when a row still has `None` for both its
service-level CPU and memory averages — i.e. after both service-level
fallbacks came back empty — are the cluster-level utilization values
written, and they go into the separate `cluster_*` columns while the
service-level columns stay `None`. -/
def attach_cluster_util (row : EcsServiceUtil) (cl_cpu cl_mem : Option ℚ) :
    EcsServiceUtil :=
  if row.cpu_util_avg_pct = none ∧ row.mem_util_avg_pct = none then
    EcsServiceUtil.mk row.cpu_util_avg_pct row.cpu_util_p95_pct
      row.mem_util_avg_pct row.mem_util_p95_pct cl_cpu cl_mem
  else row

/-! ### Helper lemmas about the sorted copy -/

lemma sortQ_sorted (S : List ℚ) : (sortQ S).Sorted (· ≤ ·) :=
  List.sorted_insertionSort _ S

lemma sortQ_perm (S : List ℚ) : List.Perm (sortQ S) S :=
  List.perm_insertionSort _ S

lemma sortQ_length (S : List ℚ) : (sortQ S).length = S.length :=
  (sortQ_perm S).length_eq

lemma sortQ_getD_mono (S : List ℚ) {i j : ℕ} (hij : i ≤ j)
    (hj : j < (sortQ S).length) :
    (sortQ S).getD i 0 ≤ (sortQ S).getD j 0 := by
  have hi : i < (sortQ S).length := Nat.lt_of_le_of_lt hij hj
  rw [List.getD_eq_getElem _ 0 hi, List.getD_eq_getElem _ 0 hj]
  exact (sortQ_sorted S).rel_get_of_le (a := ⟨i, hi⟩) (b := ⟨j, hj⟩) hij

lemma sortQ_getD_mem (S : List ℚ) {i : ℕ} (hi : i < (sortQ S).length) :
    (sortQ S).getD i 0 ∈ S := by
  rw [List.getD_eq_getElem _ 0 hi]
  exact (sortQ_perm S).mem_iff.mp (List.get_mem _ _ _)

lemma sortQ_getD_eq (S : List ℚ) {i : ℕ} (hi : i < (sortQ S).length)
    (x : ℚ) (hx : (sortQ S).get ⟨i, hi⟩ = x) : (sortQ S).getD i 0 = x := by
  rw [List.getD_eq_getElem _ 0 hi]
  exact (List.get_eq_getElem _ _).symm.trans hx

lemma minOfS_spec (S : List ℚ) (h : S ≠ []) :
    minOfS S ∈ S ∧ ∀ x ∈ S, minOfS S ≤ x := by
  have hlen : 0 < (sortQ S).length := by
    rw [sortQ_length]; exact List.length_pos.mpr h
  constructor
  · exact sortQ_getD_mem S hlen
  · intro x hx
    obtain ⟨i, hi⟩ := List.mem_iff_get.mp ((sortQ_perm S).mem_iff.mpr hx)
    calc minOfS S ≤ (sortQ S).getD i 0 :=
        sortQ_getD_mono S (Nat.zero_le _) i.isLt
    _ = x := sortQ_getD_eq S i.isLt x (by simpa using hi)

lemma maxOfS_spec (S : List ℚ) (h : S ≠ []) :
    maxOfS S ∈ S ∧ ∀ x ∈ S, x ≤ maxOfS S := by
  have hlen : 0 < (sortQ S).length := by
    rw [sortQ_length]; exact List.length_pos.mpr h
  constructor
  · exact sortQ_getD_mem S (Nat.sub_lt hlen Nat.one_pos)
  · intro x hx
    obtain ⟨i, hi⟩ := List.mem_iff_get.mp ((sortQ_perm S).mem_iff.mpr hx)
    calc x = (sortQ S).getD i 0 :=
        (sortQ_getD_eq S i.isLt x (by simpa using hi)).symm
    _ ≤ maxOfS S := sortQ_getD_mono S (Nat.le_sub_one_of_lt i.isLt)
        (Nat.sub_lt hlen Nat.one_pos)

/-! ### C4 -/

/-- C4, counterexample.  The claim reads every percentile helper of the
repository — `_percentile` and the EC2 `p95` alike — as returning the
linearly-interpolated value at rank `(n-1)*p/100`.  For `S = [0, 10]` and
`p = 95` that interpolated value is `9.5` (as `_percentile` computes on
the sorted copy), but the EC2 `p95` helper takes the nearest-rank element
`ys[round(0.95*(n-1))] = ys[1] = 10`. -/
theorem ec2_p95_not_linear_interpolation :
    p95ec2 [0, 10] = 10 ∧
    percentileOfSorted (sortQ [0, 10]) 95 = some (19 / 2) ∧
    (10 : ℚ) ≠ 19 / 2 := by
  refine ⟨?_, ?_, by norm_num⟩
  · norm_num [p95ec2, sortQ, round_eq, List.getD]
  · norm_num [percentileOfSorted, sortQ]

/-- C4, amended: for every non-empty numeric sequence `S` and percentile
`p ∈ [0, 100]`, the interpolating Percentile Estimator (`_percentile`
applied to a sorted copy of `S`, as `summarize` uses it) returns the
linearly-interpolated value at rank `(n-1)*p/100`; for `p = 0` it returns
`min(S)`, for `p = 100` it returns `max(S)`, and the result always lies
within `[min(S), max(S)]`.  The EC2 `p95` variant uses nearest-rank
rounding instead and is not interpolating (see the counterexample). -/
theorem percentile_estimator_interpolation_bounds (S : List ℚ) (p : ℚ)
    (hS : S ≠ []) (h0 : 0 ≤ p) (h100 : p ≤ 100) :
    (minOfS S ∈ S ∧ ∀ x ∈ S, minOfS S ≤ x) ∧
    (maxOfS S ∈ S ∧ ∀ x ∈ S, x ≤ maxOfS S) ∧
    ∃ v, percentileOfSorted (sortQ S) p = some v ∧
      minOfS S ≤ v ∧ v ≤ maxOfS S ∧
      (p = 0 → v = minOfS S) ∧ (p = 100 → v = maxOfS S) := by
  refine ⟨minOfS_spec S hS, maxOfS_spec S hS, ?_⟩
  have hlen : 0 < (sortQ S).length := by
    rw [sortQ_length]; exact List.length_pos.mpr hS
  have hempty : (sortQ S).isEmpty = false := by
    rw [List.isEmpty_eq_false]
    exact List.ne_nil_of_length_pos hlen
  set l := sortQ S with hldef
  set n := l.length with hndef
  set k : ℚ := ((n : ℚ) - 1) * (p / 100) with hkdef
  set f : ℤ := Int.floor k with hfdef
  set c : ℤ := min (f + 1) ((n : ℤ) - 1) with hcdef
  have hn1 : (1 : ℕ) ≤ n := hlen
  have hn1' : (1 : ℚ) ≤ (n : ℚ) := by exact_mod_cast hn1
  have hk0 : 0 ≤ k := by
    apply mul_nonneg (by linarith) (by positivity)
  have hkn : k ≤ (n : ℚ) - 1 := by
    have h1 : p / 100 ≤ 1 := by linarith
    calc k ≤ ((n : ℚ) - 1) * 1 :=
        mul_le_mul_of_nonneg_left h1 (by linarith)
    _ = (n : ℚ) - 1 := mul_one _
  have hcast : ((n : ℚ) - 1) = (((n : ℤ) - 1 : ℤ) : ℚ) := by push_cast; ring
  have hf0 : 0 ≤ f := Int.floor_nonneg.mpr hk0
  have hfk : (f : ℚ) ≤ k := Int.floor_le k
  have hkf1 : k < (f : ℚ) + 1 := Int.lt_floor_add_one k
  have hfn : f ≤ (n : ℤ) - 1 := by
    have h2 := Int.floor_le_floor hkn
    rwa [hcast, Int.floor_intCast] at h2
  have hfc : f ≤ c := le_min (by omega) hfn
  have hcn : c ≤ (n : ℤ) - 1 := min_le_right _ _
  have hfnlt : f.toNat < n := by omega
  have hcnlt : c.toNat < n := by omega
  have hfcle : f.toNat ≤ c.toNat := by omega
  have hminDef : minOfS S = l.getD 0 0 := rfl
  have hmaxDef : maxOfS S = l.getD (n - 1) 0 := rfl
  have hmono_fc : l.getD f.toNat 0 ≤ l.getD c.toNat 0 :=
    sortQ_getD_mono S hfcle hcnlt
  have hmin_f : minOfS S ≤ l.getD f.toNat 0 := by
    rw [hminDef]; exact sortQ_getD_mono S (Nat.zero_le _) hfnlt
  have hmax_c : l.getD c.toNat 0 ≤ maxOfS S := by
    rw [hmaxDef]
    have h1 : c.toNat ≤ n - 1 := by omega
    have h2 : n - 1 < n := by omega
    exact sortQ_getD_mono S h1 h2
  have hmax_f : l.getD f.toNat 0 ≤ maxOfS S := le_trans hmono_fc hmax_c
  have heval : percentileOfSorted l p =
      if f = c then some (l.getD f.toNat 0)
      else some (l.getD f.toNat 0 +
        (l.getD c.toNat 0 - l.getD f.toNat 0) * (k - (f : ℚ))) := by
    simp only [percentileOfSorted, hempty, Bool.false_eq_true, if_false]
  have hp0 : p = 0 → f = 0 := by
    intro hp
    have hk' : k = 0 := by rw [hkdef, hp]; ring
    rw [hfdef, hk']; exact Int.floor_zero
  have hp100 : p = 100 → f = (n : ℤ) - 1 := by
    intro hp
    have hk' : k = (n : ℚ) - 1 := by rw [hkdef, hp]; ring
    rw [hfdef, hk', hcast, Int.floor_intCast]
  by_cases hfceq : f = c
  · refine ⟨l.getD f.toNat 0, ?_, hmin_f, hmax_f, ?_, ?_⟩
    · rw [heval, if_pos hfceq]
    · intro hp
      have hf' : f = 0 := hp0 hp
      rw [hminDef]
      congr 1
      omega
    · intro hp
      have hf' : f = (n : ℤ) - 1 := hp100 hp
      rw [hmaxDef]
      congr 1
      omega
  · refine ⟨l.getD f.toNat 0 +
      (l.getD c.toNat 0 - l.getD f.toNat 0) * (k - (f : ℚ)), ?_, ?_, ?_, ?_, ?_⟩
    · rw [heval, if_neg hfceq]
    · have ht0 : (0 : ℚ) ≤ k - f := by linarith
      nlinarith [mul_nonneg (sub_nonneg.mpr hmono_fc) ht0]
    · have ht1 : k - (f : ℚ) ≤ 1 := by linarith
      have := mul_nonneg (sub_nonneg.mpr hmono_fc) (sub_nonneg.mpr ht1)
      nlinarith
    · intro hp
      have hf' : f = 0 := hp0 hp
      have hk' : k = 0 := by rw [hkdef, hp]; ring
      rw [hminDef]
      have hkf0 : k - (f : ℚ) = 0 := by rw [hk', hf']; norm_num
      rw [hkf0, mul_zero, add_zero]
      congr 1
      omega
    · intro hp
      exfalso
      have hf' : f = (n : ℤ) - 1 := hp100 hp
      apply hfceq
      omega

/-- C4, witness: the amended theorem applied at `S = [3, 1, 2]`,
`p = 50`. -/
theorem percentile_estimator_interpolation_bounds_witness :
    ([3, 1, 2] : List ℚ) ≠ [] ∧ (0 : ℚ) ≤ 50 ∧ (50 : ℚ) ≤ 100 ∧
    ((minOfS [3, 1, 2] ∈ ([3, 1, 2] : List ℚ) ∧
        ∀ x ∈ ([3, 1, 2] : List ℚ), minOfS [3, 1, 2] ≤ x) ∧
      (maxOfS [3, 1, 2] ∈ ([3, 1, 2] : List ℚ) ∧
        ∀ x ∈ ([3, 1, 2] : List ℚ), x ≤ maxOfS [3, 1, 2]) ∧
      ∃ v, percentileOfSorted (sortQ [3, 1, 2]) 50 = some v ∧
        minOfS [3, 1, 2] ≤ v ∧ v ≤ maxOfS [3, 1, 2] ∧
        ((50 : ℚ) = 0 → v = minOfS [3, 1, 2]) ∧
        ((50 : ℚ) = 100 → v = maxOfS [3, 1, 2])) :=
  ⟨by simp, by norm_num, by norm_num,
    percentile_estimator_interpolation_bounds [3, 1, 2] 50 (by simp)
      (by norm_num) (by norm_num)⟩

/-! ### C1 -/

/-- C1: if the Telemetry Source call raises a client error of any kind,
`safe_series` returns the empty sample list for that window; a successful
call passes its series through unchanged; the failed window degrades to a
no-data summary; and the per-metric aggregation loop still produces one
entry per metric (processing continues, nothing is re-raised and nothing
is aborted). -/
theorem safe_series_degrades_client_errors (e : ClientError) (s : List ℚ)
    (fetches : List (Except ClientError (List ℚ))) :
    safe_series (Except.error e) = [] ∧
    safe_series (Except.ok s) = s ∧
    summarize (safe_series (Except.error e)) = (none, none, none) ∧
    (collect_series fetches).length = fetches.length ∧
    ∀ i : ℕ, fetches[i]? = some (Except.error e) →
      (collect_series fetches)[i]? = some (none, none, none) := by
  refine ⟨rfl, rfl, rfl, by simp [collect_series], ?_⟩
  intro i hi
  have hmap : (collect_series fetches)[i]? =
      (fetches[i]?).map (fun f => summarize (safe_series f)) :=
    List.getElem?_map _ _ _
  rw [hmap, hi]
  rfl

/-- C1, witness: a batch where the first fetch raises `AccessDenied` and
the second succeeds. -/
theorem safe_series_degrades_client_errors_witness :
    (collect_series [Except.error ⟨"AccessDenied"⟩, Except.ok [2]])[0]? =
      some (none, none, none) :=
  (safe_series_degrades_client_errors ⟨"AccessDenied"⟩ [2]
    [Except.error ⟨"AccessDenied"⟩, Except.ok [2]]).2.2.2.2 0 rfl

/-! ### C2 -/

/-- C2: the DynamoDB Classification Engine is a strictly ordered,
first-match-wins rule list: whatever the other indicators are, a false
coverage flag yields exactly `NEED_MORE_DATA`; and with coverage true,
nonnegative throttle sums and a positive throttle sum in any window, the
result is the "throttles observed" label, irrespective of stability,
spike, headroom and sustained values. -/
theorem classification_rule_order (cov : Bool)
    (t7r t7w t30r t30w sr sw kr kw ao hr hw : ℚ) :
    (cov = false →
      recommendation cov t7r t7w t30r t30w sr sw kr kw ao hr hw =
        "NEED_MORE_DATA") ∧
    (cov = true → 0 ≤ t7r → 0 ≤ t7w → 0 ≤ t30r → 0 ≤ t30w →
      (0 < t7r ∨ 0 < t7w ∨ 0 < t30r ∨ 0 < t30w) →
      recommendation cov t7r t7w t30r t30w sr sw kr kw ao hr hw =
        "ON_DEMAND | throttles observed") := by
  constructor
  · intro hc; subst hc; simp [recommendation]
  · intro hc h1 h2 h3 h4 hpos
    subst hc
    have hsum : 0 < t7r + t7w + t30r + t30w := by
      rcases hpos with h | h | h | h <;> linarith
    simp only [recommendation]
    rw [if_neg (by simp), if_pos hsum]

/-- C2, witness: the rule-order theorem applied to a run with missing
coverage and to a run with five 7d read-throttle events. -/
theorem classification_rule_order_witness :
    recommendation false 0 0 0 0 0 0 0 0 99 0 0 = "NEED_MORE_DATA" ∧
    recommendation true 5 0 0 0 0 0 0 0 0 0 0 =
      "ON_DEMAND | throttles observed" :=
  ⟨(classification_rule_order false 0 0 0 0 0 0 0 0 99 0 0).1 rfl,
   (classification_rule_order true 5 0 0 0 0 0 0 0 0 0 0).2 rfl
     (by norm_num) (by norm_num) (by norm_num) (by norm_num)
     (Or.inl (by norm_num))⟩

/-! ### C3 -/

/-- C3: `expected_samples_30d` is the floor of the window duration over
the granularity (`30*86400 / 3600 = 720`); the coverage threshold in the
code is `0.95`, which is at least the spec's `0.9`; and `coverage_ok` is
false whenever either retrieved sample count falls below
`0.9 * expected_sample_count`. -/
theorem coverage_floor_and_threshold (sr sw : ℕ) :
    expected_samples_30d = window30_days * 86400 / window30_period ∧
    expected_samples_30d = 720 ∧
    (9 / 10 : ℚ) ≤ 95 / 100 ∧
    ((sr : ℚ) < (9 / 10) * (expected_samples_30d : ℚ) →
      coverage_ok_calc sr sw = false) ∧
    ((sw : ℚ) < (9 / 10) * (expected_samples_30d : ℚ) →
      coverage_ok_calc sr sw = false) := by
  have h720 : (expected_samples_30d : ℚ) = 720 := by
    norm_num [expected_samples_30d, SEC_30D]
  refine ⟨by decide, by decide, by norm_num, ?_, ?_⟩
  · intro h
    rw [h720] at h
    simp only [coverage_ok_calc, h720, Bool.and_eq_false_iff,
      decide_eq_false_iff_not, not_le]
    left; linarith
  · intro h
    rw [h720] at h
    simp only [coverage_ok_calc, h720, Bool.and_eq_false_iff,
      decide_eq_false_iff_not, not_le]
    right; linarith

/-- C3, witness: 600 retrieved read samples (below `0.9 * 720 = 648`)
force `coverage_ok = false`. -/
theorem coverage_floor_and_threshold_witness :
    expected_samples_30d = window30_days * 86400 / window30_period ∧
    expected_samples_30d = 720 ∧
    (9 / 10 : ℚ) ≤ 95 / 100 ∧
    coverage_ok_calc 600 720 = false :=
  ⟨(coverage_floor_and_threshold 600 720).1,
   (coverage_floor_and_threshold 600 720).2.1,
   (coverage_floor_and_threshold 600 720).2.2.1,
   (coverage_floor_and_threshold 600 720).2.2.2.1
     (by norm_num [expected_samples_30d, SEC_30D])⟩

/-! ### C5 -/

/-- C5, counterexample: for a table with zero average and zero peak in
all windows, full coverage and no throttles, the DynamoDB engine labels
`ON_DEMAND`, not `IDLE` — the engine has no near-zero-load rule and no
`IDLE` label at all. -/
theorem zero_load_not_labeled_idle :
    recommendation true 0 0 0 0 (stability_ratio 0 0) (stability_ratio 0 0)
      (stability_ratio 0 0) (stability_ratio 0 0) 0 (safe_div 0 0 0)
      (safe_div 0 0 0) ≠ "IDLE" := by
  have h : recommendation true 0 0 0 0 (stability_ratio 0 0)
      (stability_ratio 0 0) (stability_ratio 0 0) (stability_ratio 0 0) 0
      (safe_div 0 0 0) (safe_div 0 0 0) = "ON_DEMAND" := by
    norm_num [recommendation, stability_ratio, safe_div]
  rw [h]
  decide

/-- C5, amended: with average and peak zero across all windows (so every
stability, spike and headroom indicator evaluates to `0`), coverage true
and no throttles, the engine falls through to the default branch and
labels the table `ON_DEMAND`; no input is ever labeled `IDLE`. -/
theorem zero_load_defaults_to_on_demand (cov : Bool)
    (a b c d e f g h i j k : ℚ) :
    stability_ratio 0 0 = 0 ∧ safe_div 0 0 0 = 0 ∧
    recommendation true 0 0 0 0 (stability_ratio 0 0) (stability_ratio 0 0)
      (stability_ratio 0 0) (stability_ratio 0 0) 0 (safe_div 0 0 0)
      (safe_div 0 0 0) = "ON_DEMAND" ∧
    recommendation cov a b c d e f g h i j k ≠ "IDLE" := by
  refine ⟨by norm_num [stability_ratio], by norm_num [safe_div], ?_, ?_⟩
  · norm_num [recommendation, stability_ratio, safe_div]
  · simp only [recommendation]
    split_ifs <;> simp

/-! ### C6 -/

/-- C6, counterexample: when the short-window p95 input is absent (no
p95 datapoints retrieved), `MetricAggregate.p95` returns the number `0.0`
— not a distinct "unknown" value — and the headroom ratio against
`peak = 10` resolves to `0`, exactly what the claim says must not
happen. -/
theorem headroom_absent_p95_is_zero :
    (MetricAggregate.mk [] [] [] 0).p95 = 0 ∧
    safe_div (MetricAggregate.mk [] [] [] 0).p95 10 0 = 0 := by
  constructor
  · simp [MetricAggregate.p95]
  · norm_num [MetricAggregate.p95, safe_div]

/-- C6, amended: absent p95 data does become zero inside the ratio: for
every aggregate whose p95 sample list is empty, the `p95` property is
`0.0` and the headroom `safe_div(p95, peak)` is `0` for every peak; the
code has no "unknown" value and does not distinguish absent data from a
literal zero. -/
theorem absent_p95_headroom_resolves_to_zero (sums maxs : List ℚ)
    (nsamp : ℕ) (peak : ℚ) :
    (MetricAggregate.mk sums maxs [] nsamp).p95 = 0 ∧
    safe_div (MetricAggregate.mk sums maxs [] nsamp).p95 peak 0 = 0 := by
  have h1 : (MetricAggregate.mk sums maxs [] nsamp).p95 = 0 := by
    simp [MetricAggregate.p95]
  refine ⟨h1, ?_⟩
  rw [safe_div, h1]
  split <;> simp

/-! ### C7 -/

/-- C7: for every lookback of `days ≥ 1` and every requested period, the
effective period is at least the request and at least the minimum
compliant value (the ceiling of `days*86400/1440` rounded up to a
multiple of 60), so the point count `days*86400 / effective_period`
never exceeds CloudWatch's 1440-point limit. -/
theorem effective_period_point_limit (days requested : ℕ)
    (hd : 1 ≤ days) :
    requested ≤ effective_period days requested ∧
    min_period_for_days days ≤ effective_period days requested ∧
    min_period_for_days days % 60 = 0 ∧
    min_period_for_days days = ((days * 86400 + 1439) / 1440 + 59) / 60 * 60 ∧
    (days * 86400 : ℚ) / (effective_period days requested : ℚ) ≤ 1440 := by
  refine ⟨Nat.le_max_left _ _, Nat.le_max_right _ _, ?_, ?_, ?_⟩
  · simp only [min_period_for_days]
    split <;> omega
  · simp only [min_period_for_days]
    split <;> omega
  · have hb : days * 86400 ≤ 1440 * effective_period days requested := by
      simp only [effective_period, min_period_for_days]
      split <;> omega
    have hpos : 0 < effective_period days requested := by
      simp only [effective_period, min_period_for_days]
      split <;> omega
    rw [div_le_iff₀ (by exact_mod_cast hpos)]
    have : (days * 86400 : ℚ) ≤ (1440 * effective_period days requested : ℕ) := by
      exact_mod_cast hb
    push_cast at this ⊢
    linarith

/-- C7, witness: a 14-day lookback with a requested period of 300 s is
silently raised to 840 s, which keeps the call at exactly 1440 points. -/
theorem effective_period_point_limit_witness :
    (1 : ℕ) ≤ 14 ∧
    (300 ≤ effective_period 14 300 ∧
      min_period_for_days 14 ≤ effective_period 14 300 ∧
      min_period_for_days 14 % 60 = 0 ∧
      min_period_for_days 14 = ((14 * 86400 + 1439) / 1440 + 59) / 60 * 60 ∧
      (14 * 86400 : ℚ) / (effective_period 14 300 : ℚ) ≤ 1440) :=
  ⟨by decide, effective_period_point_limit 14 300 (by decide)⟩

/-! ### C8 -/

/-- Helper: the first component of a `summarize` result (the average) is
`None` exactly on an empty series. -/
lemma summarize_fst_none_iff (s : List ℚ) :
    (summarize s).1 = none ↔ s = [] := by
  cases s <;> simp [summarize]

/-- Helper: the service-level average after the Container-Insights→
`AWS/ECS` fallback is `None` exactly when both series are empty. -/
lemma ecs_fallback_fst_none (ci ecs : List ℚ) :
    (ecs_service_metric_with_fallback ci ecs).1 = none ↔
      ci = [] ∧ ecs = [] := by
  cases ci <;> cases ecs <;>
    simp [ecs_service_metric_with_fallback, summarize]

/-- C8, counterexample: neither the MQ `Average`→`Maximum` fallback nor
the ECS Container-Insights→`AWS/ECS` service fallback tags its result.
In both, a run whose primary series is empty and whose fallback series is
`[5]` returns exactly the same triple as a run whose primary series is
`[5]` — downstream consumers cannot tell the resolution was coarser than
requested. -/
theorem fallback_result_untagged :
    summarize ([] : List ℚ) = (none, none, none) ∧
    get_stat_with_fallback [] [5] = get_stat_with_fallback [5] [7] ∧
    ecs_service_metric_with_fallback [] [5] =
      ecs_service_metric_with_fallback [5] [7] := by
  refine ⟨rfl, ?_, ?_⟩
  · norm_num [get_stat_with_fallback, summarize, sortQ, percentileOfSorted]
    simp
  · norm_num [ecs_service_metric_with_fallback, summarize, sortQ,
      percentileOfSorted]
    simp

/-- C8, amended: in both fallback mechanisms the Aggregator attempts the
primary first and substitutes the fallback exactly when the primary
returns zero samples.  MQ: the `Average` summary is kept whenever its
series is non-empty, the `Maximum` summary is used otherwise.  ECS: the
Container-Insights summary is kept whenever its series is non-empty, the
`AWS/ECS` service summary is used otherwise, and the cluster-level values
are attached exactly when every service-level series (primary and
fallback, CPU and memory) returned zero samples.  Only the cluster-level
fallback is distinguishable downstream — it fills the separate
`cluster_*` columns while the service-level columns stay `None`; the MQ
and ECS service-level substitutions are returned untagged (see the
counterexample). -/
theorem fallback_only_when_primary_empty
    (s_avg s_max ci ecs cpu_ci cpu_ecs mem_ci mem_ecs : List ℚ)
    (cl_cpu cl_mem : Option ℚ) :
    (s_avg ≠ [] → get_stat_with_fallback s_avg s_max = summarize s_avg) ∧
    (s_avg = [] → get_stat_with_fallback s_avg s_max = summarize s_max) ∧
    (ci ≠ [] → ecs_service_metric_with_fallback ci ecs = summarize ci) ∧
    (ci = [] → ecs_service_metric_with_fallback ci ecs = summarize ecs) ∧
    (cpu_ci ≠ [] ∨ cpu_ecs ≠ [] ∨ mem_ci ≠ [] ∨ mem_ecs ≠ [] →
      attach_cluster_util (collect_service_util cpu_ci cpu_ecs mem_ci mem_ecs)
        cl_cpu cl_mem = collect_service_util cpu_ci cpu_ecs mem_ci mem_ecs) ∧
    (cpu_ci = [] → cpu_ecs = [] → mem_ci = [] → mem_ecs = [] →
      (attach_cluster_util (collect_service_util cpu_ci cpu_ecs mem_ci mem_ecs)
          cl_cpu cl_mem).cluster_cpu_util_avg = cl_cpu ∧
      (attach_cluster_util (collect_service_util cpu_ci cpu_ecs mem_ci mem_ecs)
          cl_cpu cl_mem).cluster_mem_util_avg = cl_mem ∧
      (collect_service_util cpu_ci cpu_ecs mem_ci
          mem_ecs).cluster_cpu_util_avg = none ∧
      (collect_service_util cpu_ci cpu_ecs mem_ci
          mem_ecs).cluster_mem_util_avg = none) := by
  have hcpu_proj :
      (collect_service_util cpu_ci cpu_ecs mem_ci mem_ecs).cpu_util_avg_pct =
        (ecs_service_metric_with_fallback cpu_ci cpu_ecs).1 := rfl
  have hmem_proj :
      (collect_service_util cpu_ci cpu_ecs mem_ci mem_ecs).mem_util_avg_pct =
        (ecs_service_metric_with_fallback mem_ci mem_ecs).1 := rfl
  refine ⟨?_, ?_, ?_, ?_, ?_, ?_⟩
  · intro h
    obtain ⟨a, t, rfl⟩ := List.exists_cons_of_ne_nil h
    simp [get_stat_with_fallback, summarize]
  · intro h
    subst h
    simp [get_stat_with_fallback, summarize]
  · intro h
    obtain ⟨a, t, rfl⟩ := List.exists_cons_of_ne_nil h
    simp [ecs_service_metric_with_fallback, summarize]
  · intro h
    subst h
    simp [ecs_service_metric_with_fallback, summarize]
  · intro h
    have hn :
        ¬((collect_service_util cpu_ci cpu_ecs mem_ci
            mem_ecs).cpu_util_avg_pct = none ∧
          (collect_service_util cpu_ci cpu_ecs mem_ci
            mem_ecs).mem_util_avg_pct = none) := by
      rintro ⟨hc, hm⟩
      rw [hcpu_proj, ecs_fallback_fst_none] at hc
      rw [hmem_proj, ecs_fallback_fst_none] at hm
      rcases h with h | h | h | h
      · exact h hc.1
      · exact h hc.2
      · exact h hm.1
      · exact h hm.2
    rw [attach_cluster_util, if_neg hn]
  · intro h1 h2 h3 h4
    subst h1; subst h2; subst h3; subst h4
    have hcond :
        (collect_service_util [] [] [] []).cpu_util_avg_pct = none ∧
        (collect_service_util [] [] [] []).mem_util_avg_pct = none :=
      ⟨rfl, rfl⟩
    rw [attach_cluster_util, if_pos hcond]
    exact ⟨rfl, rfl, rfl, rfl⟩

/-- C8, witness: the substitution rules applied to non-empty and empty
primary series of both mechanisms, and the cluster-level attachment on a
row with and without service-level data. -/
theorem fallback_only_when_primary_empty_witness :
    get_stat_with_fallback [5] [7] = summarize [5] ∧
    get_stat_with_fallback [] [5] = summarize [5] ∧
    ecs_service_metric_with_fallback [5] [7] = summarize [5] ∧
    ecs_service_metric_with_fallback [] [5] = summarize [5] ∧
    attach_cluster_util (collect_service_util [5] [] [] [])
      (some 3) (some 4) = collect_service_util [5] [] [] [] ∧
    ((attach_cluster_util (collect_service_util [] [] [] [])
        (some 3) (some 4)).cluster_cpu_util_avg = some 3 ∧
      (attach_cluster_util (collect_service_util [] [] [] [])
        (some 3) (some 4)).cluster_mem_util_avg = some 4 ∧
      (collect_service_util [] [] [] []).cluster_cpu_util_avg = none ∧
      (collect_service_util [] [] [] []).cluster_mem_util_avg = none) :=
  ⟨(fallback_only_when_primary_empty [5] [7] [] [] [] [] [] [] none none).1
      (by simp),
   (fallback_only_when_primary_empty [] [5] [] [] [] [] [] [] none none).2.1
      rfl,
   (fallback_only_when_primary_empty [] [] [5] [7] [] [] [] [] none
      none).2.2.1 (by simp),
   (fallback_only_when_primary_empty [] [] [] [5] [] [] [] [] none
      none).2.2.2.1 rfl,
   (fallback_only_when_primary_empty [] [] [] [] [5] [] [] [] (some 3)
      (some 4)).2.2.2.2.1 (Or.inl (by simp)),
   (fallback_only_when_primary_empty [] [] [] [] [] [] [] [] (some 3)
      (some 4)).2.2.2.2.2 rfl rfl rfl rfl⟩

/-! ### C9 -/

/-- C9: the stability ratio is `peak/avg` for a positive average and
exactly `0` for a zero or negative (undefined) denominator — in
particular `stability_ratio 0 0 = 0` — and the guarded division returns
the default `0` whenever the denominator is zero.  Both functions are
total: no division exception and no NaN can arise. -/
theorem ratio_guards_zero_denominator (peak avg nn : ℚ) :
    (0 < avg → stability_ratio peak avg = peak / avg) ∧
    (avg ≤ 0 → stability_ratio peak avg = 0) ∧
    stability_ratio 0 0 = 0 ∧
    safe_div nn 0 0 = 0 := by
  refine ⟨?_, ?_, by norm_num [stability_ratio], by norm_num [safe_div]⟩
  · intro h
    rw [stability_ratio, if_neg (not_le.mpr h)]
  · intro h
    rw [stability_ratio, if_pos h]

/-- C9, witness: the guards applied at `peak = 6, avg = 3`, at a
negative average and at the all-zero corner. -/
theorem ratio_guards_zero_denominator_witness :
    stability_ratio 6 3 = 6 / 3 ∧ stability_ratio 6 (-1) = 0 ∧
    stability_ratio 0 0 = 0 ∧ safe_div 7 0 0 = 0 :=
  ⟨(ratio_guards_zero_denominator 6 3 7).1 (by norm_num),
   (ratio_guards_zero_denominator 6 (-1) 7).2.1 (by norm_num),
   (ratio_guards_zero_denominator 0 0 7).2.2.1,
   (ratio_guards_zero_denominator 6 3 7).2.2.2⟩

/-! ### C10 -/

/-- C10: the percentile estimators and the `summarize` rollup sort a copy
and leave the caller's input sequence unchanged (the state-passing
embeddings return the input list intact while computing the same
values), and on the empty sequence they return their sentinels —
`(None, None, None)` for `summarize`, `None` for `_percentile`, `0` for
the nearest-rank EC2 variant — instead of raising. -/
theorem estimators_pure_and_empty_sentinels (xs : List ℚ) (p : ℚ) :
    (summarize_state xs).1 = xs ∧
    (p95ec2_state xs).1 = xs ∧
    (summarize_state xs).2 = summarize xs ∧
    (p95ec2_state xs).2 = p95ec2 xs ∧
    summarize [] = (none, none, none) ∧
    percentileOfSorted [] p = none ∧
    p95ec2 [] = 0 := by
  refine ⟨?_, ?_, ?_, ?_, rfl, rfl, rfl⟩
  · unfold summarize_state
    split <;> rfl
  · unfold p95ec2_state
    split <;> rfl
  · unfold summarize_state summarize
    split <;> rfl
  · unfold p95ec2_state p95ec2
    split <;> rfl
